import Mathlib

/-!
Shallow embedding of the `okc-zev-threejs` model viewer (`src/main.js`).

The script wires a three.js scene: bootstrap (scene, camera, renderer,
orbit controls, four lights, shadow map), a GLTF load whose success
callback centers the object, collects its distinct materials, adds a
ground plane, builds GUI folders and re-derives the camera depth from
the bounding box, an error callback that only logs, GUI change
callbacks that write into lights / materials / the loaded object, a
render loop and a resize handler.

Numbers are modelled as rationals (the claims are about exact
assignments and exact arithmetic identities, none about float
rounding).  Angles that the source sets to multiples of `Math.PI` are
stored in units of pi (so `-Math.PI / 2` is `-(1/2)`).  JavaScript
object identity of materials is modelled by a numeric identity tag
`mid`: the material store is a list of `Material` records and meshes
refer to their material by `mid`, so `Set`-deduplication by reference
becomes deduplication by `mid`.
-/

namespace OkcZev

/-- Component-wise rational 3-vector standing for `THREE.Vector3`. -/
@[ext]
structure Vec3 where
  x : ℚ
  y : ℚ
  z : ℚ
deriving DecidableEq

def Vec3.add (a b : Vec3) : Vec3 := ⟨a.x + b.x, a.y + b.y, a.z + b.z⟩

def Vec3.sub (a b : Vec3) : Vec3 := ⟨a.x - b.x, a.y - b.y, a.z - b.z⟩

/-- Component-wise product, used to apply a scale vector to a point. -/
def Vec3.mul (a b : Vec3) : Vec3 := ⟨a.x * b.x, a.y * b.y, a.z * b.z⟩

def Vec3.zero : Vec3 := ⟨0, 0, 0⟩

/-- Axis-aligned bounding box standing for `THREE.Box3`. -/
@[ext]
structure Box3 where
  lo : Vec3
  hi : Vec3
deriving DecidableEq

/-- `Box3.expandByPoint`: component-wise min into `lo`, max into `hi`. -/
def Box3.expandByPoint (b : Box3) (p : Vec3) : Box3 :=
  ⟨⟨min b.lo.x p.x, min b.lo.y p.y, min b.lo.z p.z⟩,
   ⟨max b.hi.x p.x, max b.hi.y p.y, max b.hi.z p.z⟩⟩

/-- `Box3.getCenter`: midpoint of the two corners. -/
def Box3.getCenter (b : Box3) : Vec3 :=
  ⟨(b.lo.x + b.hi.x) / 2, (b.lo.y + b.hi.y) / 2, (b.lo.z + b.hi.z) / 2⟩

/-- `Box3.getSize`: extent of the box along each axis. -/
def Box3.getSize (b : Box3) : Vec3 :=
  ⟨b.hi.x - b.lo.x, b.hi.y - b.lo.y, b.hi.z - b.lo.z⟩

/-- Translate a box by a vector (both corners move). -/
def Box3.translate (b : Box3) (t : Vec3) : Box3 :=
  ⟨Vec3.add b.lo t, Vec3.add b.hi t⟩

/-- One material object of the loaded asset.  `mid` models JavaScript
object identity (two materials with equal parameters but different
`mid` are distinct objects).  `color`, `metalness`, `roughness` are
`Option`s: `none` models the property being `undefined` on the
material. -/
structure Material where
  mid : Nat
  color : Option Nat
  metalness : Option ℚ
  roughness : Option ℚ
  wireframe : Bool
deriving DecidableEq

/-- One mesh node of the loaded subtree.  `points` are its geometry
vertices in root-local coordinates; `materialId` is the `mid` of the
material object the mesh references. -/
structure Mesh where
  materialId : Nat
  castShadow : Bool
  receiveShadow : Bool
  points : List Vec3
deriving DecidableEq

/-- The loaded root node (`gltf.scene`): a position, a scale vector, a
rotation (radians, as rationals), and its flattened list of mesh
descendants.  The embedding applies position and scale when computing
world points; the loaded root is a plain group whose rotation is zero
at load time, and no claim computes a bounding box after a rotation
has been changed. -/
structure Object3D where
  position : Vec3
  scaleV : Vec3
  rotation : Vec3
  meshes : List Mesh
deriving DecidableEq

/-- All geometry vertices of a list of meshes, in order. -/
def meshPoints (ms : List Mesh) : List Vec3 :=
  (ms.map Mesh.points).flatten

/-- World-space geometry vertices of the root: scale then translate. -/
def worldPoints (o : Object3D) : List Vec3 :=
  (meshPoints o.meshes).map (fun q => Vec3.add o.position (Vec3.mul o.scaleV q))

/-- The AABB of a list of points, by repeated `expandByPoint`; `none`
models the empty box. -/
def boxOfPoints (ps : List Vec3) : Option Box3 :=
  match ps with
  | [] => none
  | p :: ps => some (ps.foldl Box3.expandByPoint ⟨p, p⟩)

/-- `new THREE.Box3().setFromObject(object)`: the AABB of the object's
world-space vertices.  `none` models the empty box (no geometry); the
source never hits that case for a successfully parsed asset, and the
claims about the box carry a nonemptiness hypothesis. -/
def setFromObject (o : Object3D) : Option Box3 :=
  boxOfPoints (worldPoints o)

/-- Center of an optional box (`Vec3.zero` on the never-taken empty case). -/
def boxCenter (b : Option Box3) : Vec3 :=
  match b with
  | none => Vec3.zero
  | some b => b.getCenter

/-- Size of an optional box (`Vec3.zero` on the never-taken empty case). -/
def boxSize (b : Option Box3) : Vec3 :=
  match b with
  | none => Vec3.zero
  | some b => b.getSize

/-- Largest component of a size vector: `Math.max(size.x, size.y, size.z)`. -/
def maxDimOf (v : Vec3) : ℚ := max v.x (max v.y v.z)

/-- The ground plane mesh built in the load callback: a `PlaneGeometry`
with a `MeshStandardMaterial`.  `rotationXPi` is `rotation.x` in units
of pi. -/
structure GroundPlane where
  width : ℚ
  height : ℚ
  rotationXPi : ℚ
  positionY : ℚ
  castShadow : Bool
  receiveShadow : Bool
  colorHex : Nat
  metalness : ℚ
  roughness : ℚ
deriving DecidableEq

/-- A node of the scene graph, as `scene.add` sees it: one of the four
lights added at bootstrap, the ground plane, or the loaded root. -/
inductive SceneNode where
  | lightNode (name : String)
  | groundNode (g : GroundPlane)
  | objectNode (o : Object3D)
deriving DecidableEq

/-- A control inside a GUI folder; material controls carry the `mid`
of the material object their `onChange` closure captured. -/
inductive Control where
  | colorCtl (mid : Nat)
  | metalnessCtl (mid : Nat)
  | roughnessCtl (mid : Nat)
  | wireframeCtl (mid : Nat)
  | lightIntensityCtl (name : String)
  | scaleCtl
  | rotationXCtl
  | rotationYCtl
  | rotationZCtl
deriving DecidableEq

/-- Which folder a GUI section is: the bootstrap lighting folder, one
material folder (tagged by the captured material's `mid`), or the
model transform folder. -/
inductive FolderKind where
  | lightingFolder
  | materialFolder (mid : Nat)
  | modelFolder
deriving DecidableEq

structure Folder where
  kind : FolderKind
  controls : List Control
deriving DecidableEq

/-- The three.js shadow-map type enumeration. -/
inductive ShadowMapType where
  | basicShadowMap
  | pcfShadowMap
  | pcfSoftShadowMap
  | vsmShadowMap
deriving DecidableEq

/-- The renderer state the script touches: canvas size and shadow map. -/
structure Renderer where
  width : ℚ
  height : ℚ
  shadowMapEnabled : Bool
  shadowMapType : ShadowMapType
deriving DecidableEq

/-- The perspective camera fields the script touches. -/
structure Camera where
  fov : ℚ
  aspect : ℚ
  near : ℚ
  far : ℚ
  positionZ : ℚ
deriving DecidableEq

/-- The orbit-controls configuration set at bootstrap; `syncedCameraZ`
records the camera depth at the last `controls.update()` call, so
"resynchronized" is observable.  Polar angles are in units of pi. -/
structure OrbitCtl where
  enableDamping : Bool
  minPolarAnglePi : ℚ
  maxPolarAnglePi : ℚ
  minDistance : ℚ
  maxDistance : ℚ
  enableZoom : Bool
  zoomSpeed : ℚ
  syncedCameraZ : ℚ
deriving DecidableEq

/-- The intensities of the four lights (their positions are fixed and
never read by the claims; `mainCastShadow` records
`mainLight.castShadow = true`). -/
structure LightRig where
  ambientIntensity : ℚ
  mainIntensity : ℚ
  fillIntensity : ℚ
  topIntensity : ℚ
  mainCastShadow : Bool
deriving DecidableEq

/-- The whole mutable state of the script: scene graph, camera,
renderer, orbit controls, lights, GUI folders, the material store of
the loaded asset (empty before load), the console-error log, and a
frame counter for the render loop. -/
structure AppState where
  scene : List SceneNode
  camera : Camera
  renderer : Renderer
  controls : OrbitCtl
  lights : LightRig
  gui : List Folder
  materials : List Material
  errorLog : List String
  framesRendered : Nat
deriving DecidableEq

/-- Bootstrap state of `main.js` before the asset load resolves, for a
window of size `w × h`: white scene with the four lights, camera at
`z = 5` with fov 75, near 0.1, far 1000, renderer with soft shadow
mapping enabled, orbit controls with the configured limits, the GUI
holding only the lighting folder. -/
def initState (w h : ℚ) : AppState :=
  { scene := [SceneNode.lightNode "ambient", SceneNode.lightNode "main",
              SceneNode.lightNode "fill", SceneNode.lightNode "top"]
    camera := { fov := 75, aspect := w / h, near := 1/10, far := 1000, positionZ := 5 }
    renderer := { width := w, height := h, shadowMapEnabled := true,
                  shadowMapType := ShadowMapType.pcfSoftShadowMap }
    controls := { enableDamping := true, minPolarAnglePi := 0, maxPolarAnglePi := 1/2,
                  minDistance := 2, maxDistance := 20, enableZoom := true,
                  zoomSpeed := 1/2, syncedCameraZ := 5 }
    lights := { ambientIntensity := 4/10, mainIntensity := 8/10,
                fillIntensity := 4/10, topIntensity := 3/10, mainCastShadow := true }
    gui := [{ kind := FolderKind.lightingFolder,
              controls := [Control.lightIntensityCtl "ambient",
                           Control.lightIntensityCtl "main",
                           Control.lightIntensityCtl "fill",
                           Control.lightIntensityCtl "top"] }]
    materials := []
    errorLog := []
    framesRendered := 0 }

/-- `if (!child.material.color) child.material.color = new THREE.Color(0x808080)`. -/
def ensureColor (m : Material) : Material :=
  match m.color with
  | none => { m with color := some 0x808080 }
  | some _ => m

/-- The `object.traverse` body over the flattened mesh list: ensure the
mesh's material has a color, set the mesh's shadow flags, and add the
material to the (insertion-ordered, identity-deduplicated) set.
Takes and returns the material store, the processed meshes, and the
set of collected `mid`s. -/
def traverseMeshes (store : List Material) (ids : List Nat) :
    List Mesh → List Material × List Mesh × List Nat
  | [] => (store, [], ids)
  | child :: rest =>
      let store1 := store.map (fun m => if m.mid = child.materialId then ensureColor m else m)
      let ids1 := if child.materialId ∈ ids then ids else ids ++ [child.materialId]
      let child1 := { child with castShadow := true, receiveShadow := true }
      let out := traverseMeshes store1 ids1 rest
      (out.1, child1 :: out.2.1, out.2.2)

/-- The ground plane the load callback constructs: 50 × 50, rotated by
`-Math.PI / 2` about x, `position.y = -2`, receives shadows (casting
keeps the three.js default `false`), white standard material with
metalness 0.1 and roughness 0.9. -/
def mkGround : GroundPlane :=
  { width := 50, height := 50, rotationXPi := -(1/2), positionY := -2,
    castShadow := false, receiveShadow := true,
    colorHex := 0xffffff, metalness := 1/10, roughness := 9/10 }

/-- First material in the store with the given identity tag. -/
def findMat (store : List Material) (mid : Nat) : Option Material :=
  store.find? (fun m => m.mid = mid)

/-- The folder built for one material: color control always, metalness
control only when `material.metalness !== undefined`, roughness
control only when `material.roughness !== undefined`, wireframe
control always. -/
def mkMatFolder (m : Material) : Folder :=
  { kind := FolderKind.materialFolder m.mid
    controls :=
      [Control.colorCtl m.mid]
      ++ (match m.metalness with | some _ => [Control.metalnessCtl m.mid] | none => [])
      ++ (match m.roughness with | some _ => [Control.roughnessCtl m.mid] | none => [])
      ++ [Control.wireframeCtl m.mid] }

/-- `materials.forEach(...)`: one folder per collected material, in set
insertion order.  The `none` branch is unreachable when every mesh's
`materialId` has an entry in the store, which the loader guarantees;
it exists only because the embedding refers to material objects
through their identity tag. -/
def mkMatFolders (store : List Material) : List Nat → List Folder
  | [] => []
  | mid :: rest =>
      match findMat store mid with
      | some m => mkMatFolder m :: mkMatFolders store rest
      | none => mkMatFolders store rest

/-- The model transform folder: uniform scale and per-axis rotation. -/
def mkModelFolder : Folder :=
  { kind := FolderKind.modelFolder
    controls := [Control.scaleCtl, Control.rotationXCtl,
                 Control.rotationYCtl, Control.rotationZCtl] }

/-- The `loader.load` success callback, line for line: compute the box
of the loaded root and its center, subtract the center from the
position, traverse the meshes (colors, shadow flags, material set),
add the ground plane to the scene, build one GUI folder per distinct
material and the model folder, add the object to the scene, then set
the camera depth to twice the largest dimension of the box computed
above (the source reuses the pre-centering `box`) and call
`controls.update()`. -/
def onLoad (s : AppState) (gltfScene : Object3D) (store : List Material) : AppState :=
  let box := setFromObject gltfScene
  let center := boxCenter box
  let object1 := { gltfScene with position := Vec3.sub gltfScene.position center }
  let out := traverseMeshes store [] object1.meshes
  let object2 := { object1 with meshes := out.2.1 }
  let size := boxSize box
  let maxDim := maxDimOf size
  let newZ := maxDim * 2
  { s with
    scene := s.scene ++ [SceneNode.groundNode mkGround, SceneNode.objectNode object2]
    gui := s.gui ++ mkMatFolders out.1 out.2.2 ++ [mkModelFolder]
    materials := out.1
    camera := { s.camera with positionZ := newZ }
    controls := { s.controls with syncedCameraZ := newZ } }

/-- The `loader.load` error callback: `console.error(...)` only. -/
def onError (s : AppState) (e : String) : AppState :=
  { s with errorLog := s.errorLog ++ [e] }

/-- One `animate()` frame: `controls.update()` then
`renderer.render(scene, camera)` (counted). -/
def animate (s : AppState) : AppState :=
  { s with controls := { s.controls with syncedCameraZ := s.camera.positionZ }
           framesRendered := s.framesRendered + 1 }

/-- `n` frames of the render loop. -/
def animateN (n : Nat) (s : AppState) : AppState :=
  match n with
  | 0 => s
  | n + 1 => animate (animateN n s)

/-- The window-resize listener: update camera aspect and renderer size. -/
def onResize (s : AppState) (w h : ℚ) : AppState :=
  { s with camera := { s.camera with aspect := w / h }
           renderer := { s.renderer with width := w, height := h } }

/-- Lighting-folder `onChange` for the ambient light. -/
def ambientOnChange (s : AppState) (v : ℚ) : AppState :=
  { s with lights := { s.lights with ambientIntensity := v } }

/-- Lighting-folder `onChange` for the main light. -/
def mainOnChange (s : AppState) (v : ℚ) : AppState :=
  { s with lights := { s.lights with mainIntensity := v } }

/-- Lighting-folder `onChange` for the fill light. -/
def fillOnChange (s : AppState) (v : ℚ) : AppState :=
  { s with lights := { s.lights with fillIntensity := v } }

/-- Lighting-folder `onChange` for the top light. -/
def topOnChange (s : AppState) (v : ℚ) : AppState :=
  { s with lights := { s.lights with topIntensity := v } }

/-- Write to the one material object with identity `mid` (the closure
captured exactly that object). -/
def updateMaterial (store : List Material) (mid : Nat) (f : Material → Material) :
    List Material :=
  store.map (fun m => if m.mid = mid then f m else m)

/-- Material-folder `onChange`: `material.color.setHex(value)`. -/
def colorOnChange (s : AppState) (mid : Nat) (v : Nat) : AppState :=
  { s with materials := updateMaterial s.materials mid (fun m => { m with color := some v }) }

/-- Material-folder `onChange`: `material.metalness = value`. -/
def metalnessOnChange (s : AppState) (mid : Nat) (v : ℚ) : AppState :=
  { s with materials := updateMaterial s.materials mid (fun m => { m with metalness := some v }) }

/-- Material-folder `onChange`: `material.roughness = value`. -/
def roughnessOnChange (s : AppState) (mid : Nat) (v : ℚ) : AppState :=
  { s with materials := updateMaterial s.materials mid (fun m => { m with roughness := some v }) }

/-- Material-folder `onChange`: `material.wireframe = value`. -/
def wireframeOnChange (s : AppState) (mid : Nat) (v : Bool) : AppState :=
  { s with materials := updateMaterial s.materials mid (fun m => { m with wireframe := v }) }

/-- Rewrite every loaded-object node of the scene with `f` (the single
closure-captured `object` in the source). -/
def updateObject (s : AppState) (f : Object3D → Object3D) : AppState :=
  { s with scene := s.scene.map (fun n => match n with
      | SceneNode.objectNode o => SceneNode.objectNode (f o)
      | n => n) }

/-- Model-folder `onChange`: `object.scale.set(value, value, value)`. -/
def scaleOnChange (s : AppState) (v : ℚ) : AppState :=
  updateObject s (fun o => { o with scaleV := ⟨v, v, v⟩ })

/-- Model-folder `onChange`: `object.rotation.x = value`. -/
def rotationXOnChange (s : AppState) (v : ℚ) : AppState :=
  updateObject s (fun o => { o with rotation := ⟨v, o.rotation.y, o.rotation.z⟩ })

/-- Model-folder `onChange`: `object.rotation.y = value`. -/
def rotationYOnChange (s : AppState) (v : ℚ) : AppState :=
  updateObject s (fun o => { o with rotation := ⟨o.rotation.x, v, o.rotation.z⟩ })

/-- Model-folder `onChange`: `object.rotation.z = value`. -/
def rotationZOnChange (s : AppState) (v : ℚ) : AppState :=
  updateObject s (fun o => { o with rotation := ⟨o.rotation.x, o.rotation.y, v⟩ })

/-- The ground planes currently in a scene list. -/
def groundNodes (ns : List SceneNode) : List GroundPlane :=
  ns.filterMap (fun n => match n with
    | SceneNode.groundNode g => some g
    | _ => none)

/-- The loaded-object roots currently in a scene list. -/
def objectNodes (ns : List SceneNode) : List Object3D :=
  ns.filterMap (fun n => match n with
    | SceneNode.objectNode o => some o
    | _ => none)

/-- The material a mesh's `material` reference resolves to. -/
def materialOfMesh (s : AppState) (mesh : Mesh) : Option Material :=
  findMat s.materials mesh.materialId

/-- Number of GUI folders whose closure captured the material `mid`. -/
def countMatFolders (gui : List Folder) (mid : Nat) : Nat :=
  (gui.filter (fun f => f.kind = FolderKind.materialFolder mid)).length

/-- The object node exactly as `onLoad` places it into the scene:
centered (position minus pre-centering box center) with the traversed
meshes. -/
def loadedObject (gltfScene : Object3D) (store : List Material) : Object3D :=
  let box := setFromObject gltfScene
  let center := boxCenter box
  let object1 := { gltfScene with position := Vec3.sub gltfScene.position center }
  let out := traverseMeshes store [] object1.meshes
  { object1 with meshes := out.2.1 }

/-- A concrete material store for evaluation: material 1 has no color
and exposes metalness and roughness; material 2 has a color and
exposes neither. -/
def demoStore : List Material :=
  [{ mid := 1, color := none, metalness := some 1, roughness := some 0,
     wireframe := false },
   { mid := 2, color := some 0xff0000, metalness := none, roughness := none,
     wireframe := false }]

/-- First demo mesh, referencing material 1. -/
def demoMesh1 : Mesh :=
  { materialId := 1, castShadow := false, receiveShadow := false,
    points := [⟨0, 0, 0⟩, ⟨2, 4, 6⟩] }

/-- Second demo mesh, sharing material 1 with the first by identity. -/
def demoMesh2 : Mesh :=
  { materialId := 1, castShadow := false, receiveShadow := false,
    points := [⟨1, 1, 1⟩] }

/-- Third demo mesh, referencing material 2. -/
def demoMesh3 : Mesh :=
  { materialId := 2, castShadow := false, receiveShadow := false,
    points := [⟨-1, 0, 1⟩] }

/-- A concrete loaded root for evaluation: three meshes, the first two
sharing material 1 by identity, the third referencing material 2. -/
def demoObject : Object3D :=
  { position := ⟨1, 2, 3⟩, scaleV := ⟨1, 1, 1⟩, rotation := ⟨0, 0, 0⟩,
    meshes := [demoMesh1, demoMesh2, demoMesh3] }

/-- Demo material 1 as it stands after the load traversal (the mid-gray
default color has been filled in). -/
def demoTraversedMat1 : Material :=
  { mid := 1, color := some 0x808080, metalness := some 1, roughness := some 0,
    wireframe := false }

/-- The state after a successful load of the demo asset into the
bootstrap state of a 16 × 9 window. -/
def demoLoaded : AppState := onLoad (initState 16 9) demoObject demoStore

/-! Helper lemmas about the embedding. -/

theorem meshPoints_cons (m : Mesh) (t : List Mesh) :
    meshPoints (m :: t) = m.points ++ meshPoints t := by
  simp [meshPoints]

theorem traverse_meshPoints (ms : List Mesh) :
    ∀ store ids, meshPoints (traverseMeshes store ids ms).2.1 = meshPoints ms := by
  induction ms with
  | nil => intro store ids; rfl
  | cons child rest ih =>
      intro store ids
      simp only [traverseMeshes, meshPoints_cons, ih]

theorem findMat_mid {store : List Material} {k : Nat} {m : Material}
    (h : findMat store k = some m) : m.mid = k := by
  have := List.find?_some h
  simpa using this

theorem findMat_map (store : List Material) (g : Material → Material) (k : Nat)
    (hg : ∀ m, (g m).mid = m.mid) :
    findMat (store.map g) k = (findMat store k).map g := by
  induction store with
  | nil => rfl
  | cons a t ih =>
      by_cases hc : a.mid = k
      · simp [findMat, List.find?, hg a, hc]
      · simp only [List.map_cons, findMat, List.find?, hg a]
        simp only [findMat] at ih
        simp [hc, ih]

theorem ensureColor_mid (m : Material) : (ensureColor m).mid = m.mid := by
  cases h : m.color <;> simp [ensureColor, h]

theorem ensureColor_metalness (m : Material) :
    (ensureColor m).metalness = m.metalness := by
  cases h : m.color <;> simp [ensureColor, h]

theorem ensureColor_roughness (m : Material) :
    (ensureColor m).roughness = m.roughness := by
  cases h : m.color <;> simp [ensureColor, h]

theorem traverse_findMat (ms : List Mesh) :
    ∀ store ids k,
      (findMat (traverseMeshes store ids ms).1 k).map (fun m => (m.metalness, m.roughness)) =
      (findMat store k).map (fun m => (m.metalness, m.roughness)) := by
  induction ms with
  | nil => intro store ids k; rfl
  | cons child rest ih =>
      intro store ids k
      have hg : ∀ m : Material,
          ((fun m => if m.mid = child.materialId then ensureColor m else m) m).mid = m.mid := by
        intro m
        by_cases hc : m.mid = child.materialId <;> simp [hc, ensureColor_mid]
      simp only [traverseMeshes]
      rw [ih, findMat_map _ _ _ hg, Option.map_map]
      congr 1
      funext m
      by_cases hc : m.mid = child.materialId <;>
        simp [hc, Function.comp, ensureColor_metalness, ensureColor_roughness]

theorem traverse_findMat_isSome (ms : List Mesh) (store : List Material)
    (ids : List Nat) (k : Nat) :
    (findMat (traverseMeshes store ids ms).1 k).isSome = (findMat store k).isSome := by
  have h := traverse_findMat ms store ids k
  cases h1 : findMat (traverseMeshes store ids ms).1 k <;>
    cases h2 : findMat store k <;> simp [h1, h2] at h ⊢

theorem traverse_ids_mem (ms : List Mesh) :
    ∀ store ids k,
      (k ∈ (traverseMeshes store ids ms).2.2 ↔
        k ∈ ids ∨ ∃ mesh, mesh ∈ ms ∧ mesh.materialId = k) := by
  induction ms with
  | nil => intro store ids k; simp [traverseMeshes]
  | cons child rest ih =>
      intro store ids k
      simp only [traverseMeshes]
      rw [ih]
      by_cases hc : child.materialId ∈ ids
      · simp only [if_pos hc, List.mem_cons]
        constructor
        · rintro (h | ⟨mesh, hm, hk⟩)
          · exact Or.inl h
          · exact Or.inr ⟨mesh, Or.inr hm, hk⟩
        · rintro (h | ⟨mesh, hm | hm, hk⟩)
          · exact Or.inl h
          · subst hm; subst hk; exact Or.inl hc
          · exact Or.inr ⟨mesh, hm, hk⟩
      · simp only [if_neg hc, List.mem_append, List.mem_singleton, List.mem_cons]
        constructor
        · rintro ((h | h) | ⟨mesh, hm, hk⟩)
          · exact Or.inl h
          · have hck : k = child.materialId := by simpa using h
            exact Or.inr ⟨child, Or.inl rfl, hck.symm⟩
          · exact Or.inr ⟨mesh, Or.inr hm, hk⟩
        · rintro (h | ⟨mesh, hm | hm, hk⟩)
          · exact Or.inl (Or.inl h)
          · subst hm
            refine Or.inl (Or.inr ?_)
            simp [hk.symm]
          · exact Or.inr ⟨mesh, hm, hk⟩

theorem traverse_ids_nodup (ms : List Mesh) :
    ∀ store ids, ids.Nodup → (traverseMeshes store ids ms).2.2.Nodup := by
  induction ms with
  | nil => intro store ids h; exact h
  | cons child rest ih =>
      intro store ids h
      simp only [traverseMeshes]
      apply ih
      by_cases hc : child.materialId ∈ ids
      · simpa [if_pos hc] using h
      · rw [if_neg hc]
        simp only [List.nodup_append, List.nodup_cons, List.nodup_nil]
        refine ⟨h, ⟨by simp, by simp⟩, ?_⟩
        intro a ha hb
        simp only [List.mem_singleton] at hb
        subst hb
        exact hc ha

theorem mem_mkMatFolders {store : List Material} {idsl : List Nat} {f : Folder}
    (h : f ∈ mkMatFolders store idsl) :
    ∃ id m, id ∈ idsl ∧ findMat store id = some m ∧ f = mkMatFolder m := by
  induction idsl with
  | nil => simp [mkMatFolders] at h
  | cons id rest ih =>
      by_cases hf : (findMat store id).isSome
      · obtain ⟨m, hm⟩ := Option.isSome_iff_exists.mp hf
        rw [mkMatFolders, hm] at h
        rcases List.mem_cons.mp h with h1 | h1
        · exact ⟨id, m, List.mem_cons_self _ _, hm, h1⟩
        · obtain ⟨id2, m2, h2, h3, h4⟩ := ih h1
          exact ⟨id2, m2, List.mem_cons_of_mem _ h2, h3, h4⟩
      · rw [mkMatFolders, Option.not_isSome_iff_eq_none.mp hf] at h
        obtain ⟨id2, m2, h2, h3, h4⟩ := ih h
        exact ⟨id2, m2, List.mem_cons_of_mem _ h2, h3, h4⟩

theorem countMatFolders_cons (f : Folder) (l : List Folder) (mid : Nat) :
    countMatFolders (f :: l) mid =
      (if f.kind = FolderKind.materialFolder mid then 1 else 0) + countMatFolders l mid := by
  by_cases h : f.kind = FolderKind.materialFolder mid <;>
    simp [countMatFolders, List.filter_cons, h, Nat.add_comm]

theorem countMatFolders_append (l1 l2 : List Folder) (mid : Nat) :
    countMatFolders (l1 ++ l2) mid = countMatFolders l1 mid + countMatFolders l2 mid := by
  simp [countMatFolders, List.filter_append]

theorem countMatFolders_mk (store : List Material) (idsl : List Nat) (mid : Nat)
    (hex : ∀ id ∈ idsl, (findMat store id).isSome) :
    countMatFolders (mkMatFolders store idsl) mid = idsl.count mid := by
  induction idsl with
  | nil => rfl
  | cons id rest ih =>
      obtain ⟨m, hm⟩ := Option.isSome_iff_exists.mp (hex id (List.mem_cons_self _ _))
      have hmid : m.mid = id := findMat_mid hm
      rw [mkMatFolders, hm, countMatFolders_cons,
          ih (fun i hi => hex i (List.mem_cons_of_mem _ hi)), List.count_cons]
      simp only [mkMatFolder, hmid]
      by_cases hc : id = mid
      · simp [hc, Nat.add_comm]
      · simp [hc, fun h : mid = id => hc h.symm]

theorem expandByPoint_sub (b : Box3) (p c : Vec3) :
    Box3.expandByPoint ⟨Vec3.sub b.lo c, Vec3.sub b.hi c⟩ (Vec3.sub p c) =
      ⟨Vec3.sub (Box3.expandByPoint b p).lo c, Vec3.sub (Box3.expandByPoint b p).hi c⟩ := by
  simp [Box3.expandByPoint, Vec3.sub, min_sub_sub_right, max_sub_sub_right]

theorem foldl_expand_sub (c : Vec3) (ps : List Vec3) :
    ∀ b : Box3,
      (ps.map (fun v => Vec3.sub v c)).foldl Box3.expandByPoint
          ⟨Vec3.sub b.lo c, Vec3.sub b.hi c⟩ =
        ⟨Vec3.sub (ps.foldl Box3.expandByPoint b).lo c,
         Vec3.sub (ps.foldl Box3.expandByPoint b).hi c⟩ := by
  induction ps with
  | nil => intro b; rfl
  | cons p t ih =>
      intro b
      simp only [List.map_cons, List.foldl_cons, expandByPoint_sub]
      exact ih (Box3.expandByPoint b p)

theorem boxOfPoints_map_sub (ps : List Vec3) (c : Vec3) :
    boxOfPoints (ps.map (fun v => Vec3.sub v c)) =
      (boxOfPoints ps).map
        (fun b => (⟨Vec3.sub b.lo c, Vec3.sub b.hi c⟩ : Box3)) := by
  cases ps with
  | nil => rfl
  | cons p t =>
      simp only [boxOfPoints, List.map_cons, Option.map_some]
      rw [show (⟨Vec3.sub p c, Vec3.sub p c⟩ : Box3) =
            ⟨Vec3.sub (⟨p, p⟩ : Box3).lo c, Vec3.sub (⟨p, p⟩ : Box3).hi c⟩ from rfl,
          foldl_expand_sub]
      simp

theorem worldPoints_loadedObject (o : Object3D) (store : List Material) :
    worldPoints (loadedObject o store) =
      (worldPoints o).map (fun v => Vec3.sub v (boxCenter (setFromObject o))) := by
  simp only [loadedObject, worldPoints, traverse_meshPoints, List.map_map]
  congr 1
  funext q
  simp only [Function.comp, Vec3.add, Vec3.sub, Vec3.mul]
  ext <;> dsimp <;> ring

theorem setFromObject_loadedObject (o : Object3D) (store : List Material) :
    setFromObject (loadedObject o store) =
      (setFromObject o).map
        (fun b => (⟨Vec3.sub b.lo (boxCenter (setFromObject o)),
                    Vec3.sub b.hi (boxCenter (setFromObject o))⟩ : Box3)) := by
  rw [setFromObject, worldPoints_loadedObject, boxOfPoints_map_sub]
  rfl

theorem setFromObject_isSome {o : Object3D} (h : worldPoints o ≠ []) :
    ∃ b, setFromObject o = some b := by
  cases hw : worldPoints o with
  | nil => exact absurd hw h
  | cons p t =>
      refine ⟨t.foldl Box3.expandByPoint ⟨p, p⟩, ?_⟩
      simp [setFromObject, hw, boxOfPoints]

theorem onLoad_scene (s : AppState) (o : Object3D) (store : List Material) :
    (onLoad s o store).scene =
      s.scene ++ [SceneNode.groundNode mkGround,
                  SceneNode.objectNode (loadedObject o store)] := rfl

theorem onLoad_cameraZ (s : AppState) (o : Object3D) (store : List Material) :
    (onLoad s o store).camera.positionZ =
      maxDimOf (boxSize (setFromObject o)) * 2 := rfl

theorem onLoad_syncedZ (s : AppState) (o : Object3D) (store : List Material) :
    (onLoad s o store).controls.syncedCameraZ =
      maxDimOf (boxSize (setFromObject o)) * 2 := rfl

theorem onLoad_gui (s : AppState) (o : Object3D) (store : List Material) :
    (onLoad s o store).gui =
      s.gui ++ mkMatFolders (traverseMeshes store [] o.meshes).1
                 (traverseMeshes store [] o.meshes).2.2
            ++ [mkModelFolder] := by
  simp [onLoad, List.append_assoc]

theorem shiftBox_getSize (b : Box3) (c : Vec3) :
    Box3.getSize ⟨Vec3.sub b.lo c, Vec3.sub b.hi c⟩ = b.getSize := by
  ext <;> simp [Box3.getSize, Vec3.sub]

theorem shiftBox_getCenter_self (b : Box3) :
    Box3.getCenter ⟨Vec3.sub b.lo b.getCenter, Vec3.sub b.hi b.getCenter⟩ = Vec3.zero := by
  ext <;> simp [Box3.getCenter, Vec3.sub, Vec3.zero] <;> ring

theorem animateN_scene (n : Nat) (s : AppState) : (animateN n s).scene = s.scene := by
  induction n with
  | zero => rfl
  | succ n ih => simp [animateN, animate, ih]

theorem animateN_renderer (n : Nat) (s : AppState) :
    (animateN n s).renderer = s.renderer := by
  induction n with
  | zero => rfl
  | succ n ih => simp [animateN, animate, ih]

theorem animateN_frames (n : Nat) (s : AppState) :
    (animateN n s).framesRendered = s.framesRendered + n := by
  induction n with
  | zero => rfl
  | succ n ih => simp [animateN, animate, ih]; omega

theorem groundNodes_append (l1 l2 : List SceneNode) :
    groundNodes (l1 ++ l2) = groundNodes l1 ++ groundNodes l2 := by
  simp [groundNodes]

theorem objectNodes_append (l1 l2 : List SceneNode) :
    objectNodes (l1 ++ l2) = objectNodes l1 ++ objectNodes l2 := by
  simp [objectNodes]

theorem groundNodes_updateObject (s : AppState) (f : Object3D → Object3D) :
    groundNodes (updateObject s f).scene = groundNodes s.scene := by
  simp only [updateObject, groundNodes, List.filterMap_map]
  congr 1
  funext n
  cases n <;> rfl

theorem objectNodes_updateObject (s : AppState) (f : Object3D → Object3D) :
    objectNodes (updateObject s f).scene = (objectNodes s.scene).map f := by
  simp only [updateObject, objectNodes, List.filterMap_map, List.map_filterMap]
  congr 1
  funext n
  cases n <;> rfl

theorem findMat_update (store : List Material) (mid k : Nat) (f : Material → Material)
    (hf : ∀ m, (f m).mid = m.mid) :
    findMat (updateMaterial store mid f) k =
      (findMat store k).map (fun m => if m.mid = mid then f m else m) := by
  apply findMat_map
  intro m
  by_cases h : m.mid = mid <;> simp [h, hf]

/-! Claim theorems. -/

/-- C1: after a successful load, the camera's depth position equals
exactly 2 times the largest dimension of the loaded root node's
post-centering axis-aligned bounding box (the box recomputed on the
object exactly as it was placed into the scene), and the orbit
controller is resynchronized to the new camera position. -/
theorem claim_C1 (s : AppState) (o : Object3D) (store : List Material)
    (h : worldPoints o ≠ []) :
    (onLoad s o store).scene =
        s.scene ++ [SceneNode.groundNode mkGround,
                    SceneNode.objectNode (loadedObject o store)] ∧
    (onLoad s o store).camera.positionZ =
        2 * maxDimOf (boxSize (setFromObject (loadedObject o store))) ∧
    (onLoad s o store).controls.syncedCameraZ = (onLoad s o store).camera.positionZ := by
  obtain ⟨b, hb⟩ := setFromObject_isSome h
  refine ⟨onLoad_scene s o store, ?_, ?_⟩
  · rw [onLoad_cameraZ, setFromObject_loadedObject, hb]
    simp [boxSize, shiftBox_getSize, mul_comm]
  · rw [onLoad_cameraZ, onLoad_syncedZ]

/-- Witness for C1: the hypotheses hold and the property evaluates on
the concrete demo asset. -/
theorem claim_C1_witness :
    worldPoints demoObject ≠ [] ∧
    ((onLoad (initState 16 9) demoObject demoStore).scene =
        (initState 16 9).scene ++ [SceneNode.groundNode mkGround,
          SceneNode.objectNode (loadedObject demoObject demoStore)] ∧
     (onLoad (initState 16 9) demoObject demoStore).camera.positionZ =
        2 * maxDimOf (boxSize (setFromObject (loadedObject demoObject demoStore))) ∧
     (onLoad (initState 16 9) demoObject demoStore).controls.syncedCameraZ =
        (onLoad (initState 16 9) demoObject demoStore).camera.positionZ) :=
  ⟨by decide, claim_C1 (initState 16 9) demoObject demoStore (by decide)⟩

/-- C2: after a successful load, the bounding-box center of the loaded
root node as placed in the scene equals the origin, for any initial
position of the root, achieved by subtracting the computed box center
from the root's position. -/
theorem claim_C2 (s : AppState) (o : Object3D) (store : List Material)
    (h : worldPoints o ≠ []) :
    (onLoad s o store).scene =
        s.scene ++ [SceneNode.groundNode mkGround,
                    SceneNode.objectNode (loadedObject o store)] ∧
    boxCenter (setFromObject (loadedObject o store)) = Vec3.zero ∧
    (loadedObject o store).position =
        Vec3.sub o.position (boxCenter (setFromObject o)) := by
  obtain ⟨b, hb⟩ := setFromObject_isSome h
  refine ⟨onLoad_scene s o store, ?_, rfl⟩
  rw [setFromObject_loadedObject, hb]
  simp only [Option.map_some, boxCenter]
  exact shiftBox_getCenter_self b

/-- Witness for C2: the hypotheses hold and the property evaluates on
the concrete demo asset, whose initial position is nonzero. -/
theorem claim_C2_witness :
    worldPoints demoObject ≠ [] ∧
    ((onLoad (initState 16 9) demoObject demoStore).scene =
        (initState 16 9).scene ++ [SceneNode.groundNode mkGround,
          SceneNode.objectNode (loadedObject demoObject demoStore)] ∧
     boxCenter (setFromObject (loadedObject demoObject demoStore)) = Vec3.zero ∧
     (loadedObject demoObject demoStore).position =
        Vec3.sub demoObject.position (boxCenter (setFromObject demoObject))) :=
  ⟨by decide, claim_C2 (initState 16 9) demoObject demoStore (by decide)⟩

/-- C3: for every material object reachable from the loaded object's
meshes, exactly one control-panel section is created, regardless of
how many meshes reference that material object; for identities no
mesh references, none is created.  The pre-load GUI has no section for
the material, and every referenced material identity resolves in the
store. -/
theorem claim_C3 (s : AppState) (o : Object3D) (store : List Material) (mid : Nat)
    (hgui : countMatFolders s.gui mid = 0)
    (hstore : ∀ mesh ∈ o.meshes, (findMat store mesh.materialId).isSome = true) :
    countMatFolders (onLoad s o store).gui mid =
      if ∃ mesh, mesh ∈ o.meshes ∧ mesh.materialId = mid then 1 else 0 := by
  rw [onLoad_gui, countMatFolders_append, countMatFolders_append, hgui]
  have hmodel : countMatFolders [mkModelFolder] mid = 0 := by
    simp [countMatFolders, mkModelFolder, List.filter]
  have hex : ∀ id ∈ (traverseMeshes store [] o.meshes).2.2,
      (findMat (traverseMeshes store [] o.meshes).1 id).isSome = true := by
    intro id hid
    rcases (traverse_ids_mem o.meshes store [] id).mp hid with h | ⟨mesh, hm, hk⟩
    · simp at h
    · rw [traverse_findMat_isSome]
      rw [← hk]
      exact hstore mesh hm
  rw [countMatFolders_mk _ _ _ hex, hmodel]
  by_cases hmem : ∃ mesh, mesh ∈ o.meshes ∧ mesh.materialId = mid
  · have hin : mid ∈ (traverseMeshes store [] o.meshes).2.2 :=
      (traverse_ids_mem o.meshes store [] mid).mpr (Or.inr hmem)
    have hnd : (traverseMeshes store [] o.meshes).2.2.Nodup :=
      traverse_ids_nodup o.meshes store [] List.nodup_nil
    rw [if_pos hmem, List.count_eq_one_of_mem hnd hin]
  · have hnin : mid ∉ (traverseMeshes store [] o.meshes).2.2 := by
      intro hin
      rcases (traverse_ids_mem o.meshes store [] mid).mp hin with h | h
      · simp at h
      · exact hmem h
    rw [if_neg hmem, List.count_eq_zero.mpr hnin]

/-- Witness for C3: in the demo asset two meshes share material 1 by
identity, yet exactly one section exists for it. -/
theorem claim_C3_witness :
    countMatFolders (initState 16 9).gui 1 = 0 ∧
    (∀ mesh ∈ demoObject.meshes, (findMat demoStore mesh.materialId).isSome = true) ∧
    countMatFolders (onLoad (initState 16 9) demoObject demoStore).gui 1 =
      if ∃ mesh, mesh ∈ demoObject.meshes ∧ mesh.materialId = 1 then 1 else 0 :=
  ⟨by decide, by decide, claim_C3 (initState 16 9) demoObject demoStore 1
    (by decide) (by decide)⟩

/-- C4: a material's panel section contains a metalness control if and
only if the source material exposes a metalness property, and a
roughness control if and only if it exposes a roughness property. -/
theorem claim_C4 (s : AppState) (o : Object3D) (store : List Material)
    (f : Folder) (mid : Nat) (m : Material)
    (hgui : countMatFolders s.gui mid = 0)
    (hf : f ∈ (onLoad s o store).gui)
    (hk : f.kind = FolderKind.materialFolder mid)
    (hm : findMat store mid = some m) :
    ((Control.metalnessCtl mid ∈ f.controls) ↔ m.metalness.isSome = true) ∧
    ((Control.roughnessCtl mid ∈ f.controls) ↔ m.roughness.isSome = true) := by
  rw [onLoad_gui] at hf
  rcases List.mem_append.mp hf with hf1 | hf1
  · rcases List.mem_append.mp hf1 with hf2 | hf2
    · exfalso
      have : f ∈ (s.gui.filter (fun g => g.kind = FolderKind.materialFolder mid)) :=
        List.mem_filter.mpr ⟨hf2, by simp [hk]⟩
      rw [countMatFolders, List.length_eq_zero] at hgui
      rw [hgui] at this
      simp at this
    · obtain ⟨id, m2, hid, hfind2, rfl⟩ := mem_mkMatFolders hf2
      have hmid2 : m2.mid = mid := by
        simpa [mkMatFolder] using hk
      have hidmid : id = mid := by
        rw [← findMat_mid hfind2, hmid2]
      subst hidmid
      have hproj := traverse_findMat o.meshes store [] id
      rw [hfind2, hm] at hproj
      simp only [Option.map_some'] at hproj
      have hmetal : m2.metalness = m.metalness := by
        have := congrArg (fun p => p.map Prod.fst) hproj
        simpa using this
      have hrough : m2.roughness = m.roughness := by
        have := congrArg (fun p => p.map Prod.snd) hproj
        simpa using this
      rw [← hmetal, ← hrough]
      cases hcm : m2.metalness <;> cases hcr : m2.roughness <;>
        simp [mkMatFolder, hcm, hcr, hmid2]
  · exfalso
    rw [List.mem_singleton] at hf1
    subst hf1
    simp [mkModelFolder] at hk

/-- Witness for C4: the section for demo material 1 (metalness and
roughness present) carries both controls. -/
theorem claim_C4_witness :
    countMatFolders (initState 16 9).gui 1 = 0 ∧
    (⟨FolderKind.materialFolder 1,
      [Control.colorCtl 1, Control.metalnessCtl 1, Control.roughnessCtl 1,
       Control.wireframeCtl 1]⟩ : Folder) ∈
        (onLoad (initState 16 9) demoObject demoStore).gui ∧
    ((Control.metalnessCtl 1 ∈ ([Control.colorCtl 1, Control.metalnessCtl 1,
        Control.roughnessCtl 1, Control.wireframeCtl 1] : List Control)) ↔
      (Option.some (1 : ℚ)).isSome = true) ∧
    ((Control.roughnessCtl 1 ∈ ([Control.colorCtl 1, Control.metalnessCtl 1,
        Control.roughnessCtl 1, Control.wireframeCtl 1] : List Control)) ↔
      (Option.some (0 : ℚ)).isSome = true) := by
  refine ⟨by decide, by decide, ?_⟩
  exact claim_C4 (initState 16 9) demoObject demoStore
    ⟨FolderKind.materialFolder 1,
      [Control.colorCtl 1, Control.metalnessCtl 1, Control.roughnessCtl 1,
       Control.wireframeCtl 1]⟩ 1
    { mid := 1, color := none, metalness := some 1, roughness := some 0,
      wireframe := false }
    (by decide) (by decide) (by decide) (by decide)

/-- C5: for every value `v` in [0.1, 2], invoking the scale control's
on-change callback with `v` leaves every loaded root node in the
scene with scale vector exactly `(v, v, v)`. -/
theorem claim_C5 (s : AppState) (v : ℚ) (o : Object3D)
    (h1 : 1/10 ≤ v) (h2 : v ≤ 2)
    (h3 : SceneNode.objectNode o ∈ (scaleOnChange s v).scene) :
    o.scaleV = ⟨v, v, v⟩ := by
  simp only [scaleOnChange, updateObject, List.mem_map] at h3
  obtain ⟨n, hn, heq⟩ := h3
  cases n with
  | lightNode name => simp at heq
  | groundNode g => simp at heq
  | objectNode o0 =>
      simp only [SceneNode.objectNode.injEq] at heq
      rw [← heq]

/-- Witness for C5: applying the scale callback with `v = 2` on the
demo post-load state gives the loaded root scale `(2, 2, 2)`. -/
theorem claim_C5_witness :
    (1 : ℚ)/10 ≤ 2 ∧ (2 : ℚ) ≤ 2 ∧
    ({ loadedObject demoObject demoStore with scaleV := (⟨2, 2, 2⟩ : Vec3) }
        : Object3D).scaleV = (⟨2, 2, 2⟩ : Vec3) := by
  refine ⟨by norm_num, by norm_num, ?_⟩
  refine claim_C5 demoLoaded 2 _ (by norm_num) (by norm_num) ?_
  simp [scaleOnChange, updateObject, demoLoaded, onLoad_scene, initState]

/-- C6: each light's intensity callback sets exactly that light's
intensity to the given value and leaves the other three lights'
intensities unchanged. -/
theorem claim_C6 (s : AppState) (v : ℚ) :
    ((ambientOnChange s v).lights.ambientIntensity = v ∧
     (ambientOnChange s v).lights.mainIntensity = s.lights.mainIntensity ∧
     (ambientOnChange s v).lights.fillIntensity = s.lights.fillIntensity ∧
     (ambientOnChange s v).lights.topIntensity = s.lights.topIntensity) ∧
    ((mainOnChange s v).lights.mainIntensity = v ∧
     (mainOnChange s v).lights.ambientIntensity = s.lights.ambientIntensity ∧
     (mainOnChange s v).lights.fillIntensity = s.lights.fillIntensity ∧
     (mainOnChange s v).lights.topIntensity = s.lights.topIntensity) ∧
    ((fillOnChange s v).lights.fillIntensity = v ∧
     (fillOnChange s v).lights.ambientIntensity = s.lights.ambientIntensity ∧
     (fillOnChange s v).lights.mainIntensity = s.lights.mainIntensity ∧
     (fillOnChange s v).lights.topIntensity = s.lights.topIntensity) ∧
    ((topOnChange s v).lights.topIntensity = v ∧
     (topOnChange s v).lights.ambientIntensity = s.lights.ambientIntensity ∧
     (topOnChange s v).lights.mainIntensity = s.lights.mainIntensity ∧
     (topOnChange s v).lights.fillIntensity = s.lights.fillIntensity) :=
  ⟨⟨rfl, rfl, rfl, rfl⟩, ⟨rfl, rfl, rfl, rfl⟩,
   ⟨rfl, rfl, rfl, rfl⟩, ⟨rfl, rfl, rfl, rfl⟩⟩

/-- C7: exactly one ground plane is added to the scene graph, on load
success only: a 50 × 50 plane rotated by `-pi/2` about x, at
`y = -2`, receiving shadows and not casting them; the bootstrap scene
has none, and no other operation adds or removes one. -/
theorem claim_C7 :
    (∀ w h, groundNodes (initState w h).scene = []) ∧
    (∀ s o store, groundNodes (onLoad s o store).scene
        = groundNodes s.scene ++ [mkGround]) ∧
    (mkGround.width = 50 ∧ mkGround.height = 50 ∧
     mkGround.rotationXPi = -(1/2) ∧ mkGround.positionY = -2 ∧
     mkGround.receiveShadow = true ∧ mkGround.castShadow = false) ∧
    (∀ s e, groundNodes (onError s e).scene = groundNodes s.scene) ∧
    (∀ n s, groundNodes (animateN n s).scene = groundNodes s.scene) ∧
    (∀ s w h, groundNodes (onResize s w h).scene = groundNodes s.scene) ∧
    (∀ s v, groundNodes (ambientOnChange s v).scene = groundNodes s.scene ∧
            groundNodes (mainOnChange s v).scene = groundNodes s.scene ∧
            groundNodes (fillOnChange s v).scene = groundNodes s.scene ∧
            groundNodes (topOnChange s v).scene = groundNodes s.scene) ∧
    (∀ s mid v, groundNodes (metalnessOnChange s mid v).scene = groundNodes s.scene ∧
                groundNodes (roughnessOnChange s mid v).scene = groundNodes s.scene) ∧
    (∀ s mid c, groundNodes (colorOnChange s mid c).scene = groundNodes s.scene) ∧
    (∀ s mid b, groundNodes (wireframeOnChange s mid b).scene = groundNodes s.scene) ∧
    (∀ s v, groundNodes (scaleOnChange s v).scene = groundNodes s.scene ∧
            groundNodes (rotationXOnChange s v).scene = groundNodes s.scene ∧
            groundNodes (rotationYOnChange s v).scene = groundNodes s.scene ∧
            groundNodes (rotationZOnChange s v).scene = groundNodes s.scene) := by
  refine ⟨fun w h => rfl, ?_, ⟨rfl, rfl, rfl, rfl, rfl, rfl⟩,
    fun s e => rfl, ?_, fun s w h => rfl,
    fun s v => ⟨rfl, rfl, rfl, rfl⟩,
    fun s mid v => ⟨rfl, rfl⟩, fun s mid c => rfl, fun s mid b => rfl,
    fun s v => ⟨groundNodes_updateObject s _, groundNodes_updateObject s _,
      groundNodes_updateObject s _, groundNodes_updateObject s _⟩⟩
  · intro s o store
    rw [onLoad_scene, groundNodes_append]
    rfl
  · intro n s
    rw [animateN_scene]

/-- C8: the load error callback only appends to the diagnostic log; it
leaves the scene (in particular, ground planes and loaded objects)
and every other component untouched, and any number of subsequent
render-loop frames keeps the scene unchanged while frames keep being
rendered. -/
theorem claim_C8 (s : AppState) (e : String) (n : Nat) :
    (onError s e).scene = s.scene ∧
    (onError s e).errorLog = s.errorLog ++ [e] ∧
    (onError s e).camera = s.camera ∧
    (onError s e).gui = s.gui ∧
    (onError s e).materials = s.materials ∧
    (onError s e).lights = s.lights ∧
    (onError s e).renderer = s.renderer ∧
    (onError s e).controls = s.controls ∧
    (animateN n (onError s e)).scene = s.scene ∧
    groundNodes (animateN n (onError s e)).scene = groundNodes s.scene ∧
    objectNodes (animateN n (onError s e)).scene = objectNodes s.scene ∧
    (animateN n (onError s e)).framesRendered = s.framesRendered + n := by
  refine ⟨rfl, rfl, rfl, rfl, rfl, rfl, rfl, rfl, ?_, ?_, ?_, ?_⟩
  · exact animateN_scene n (onError s e)
  · rw [animateN_scene]; rfl
  · rw [animateN_scene]; rfl
  · exact animateN_frames n (onError s e)

/-- C9: each material section's on-change callbacks (color, metalness,
roughness, wireframe) write to exactly the one captured material
object, so the change is observed through any mesh sharing that
material, while any material object with a different identity is left
unchanged. -/
theorem claim_C9 (s : AppState) (mid : Nat) (mesh mesh2 : Mesh) (m : Material)
    (v vr : ℚ) (c : Nat) (b : Bool)
    (h1 : mesh.materialId = mid) (h2 : mesh2.materialId ≠ mid)
    (hm : materialOfMesh s mesh = some m) :
    materialOfMesh (metalnessOnChange s mid v) mesh =
        some { m with metalness := some v } ∧
    materialOfMesh (metalnessOnChange s mid v) mesh2 = materialOfMesh s mesh2 ∧
    materialOfMesh (roughnessOnChange s mid vr) mesh =
        some { m with roughness := some vr } ∧
    materialOfMesh (roughnessOnChange s mid vr) mesh2 = materialOfMesh s mesh2 ∧
    materialOfMesh (colorOnChange s mid c) mesh = some { m with color := some c } ∧
    materialOfMesh (colorOnChange s mid c) mesh2 = materialOfMesh s mesh2 ∧
    materialOfMesh (wireframeOnChange s mid b) mesh = some { m with wireframe := b } ∧
    materialOfMesh (wireframeOnChange s mid b) mesh2 = materialOfMesh s mesh2 := by
  have hm' : findMat s.materials mesh.materialId = some m := hm
  have hmmid : m.mid = mid := by rw [findMat_mid hm', h1]
  have key : ∀ f : Material → Material, (∀ x, (f x).mid = x.mid) →
      findMat (updateMaterial s.materials mid f) mesh.materialId = some (f m) ∧
      findMat (updateMaterial s.materials mid f) mesh2.materialId =
        findMat s.materials mesh2.materialId := by
    intro f hf
    constructor
    · rw [findMat_update _ _ _ _ hf, hm']
      simp [hmmid]
    · rw [findMat_update _ _ _ _ hf]
      cases hx : findMat s.materials mesh2.materialId with
      | none => rfl
      | some m2 =>
          have hne : m2.mid ≠ mid := by rw [findMat_mid hx]; exact h2
          simp [hne]
  exact ⟨(key (fun x => { x with metalness := some v }) fun x => rfl).1,
         (key (fun x => { x with metalness := some v }) fun x => rfl).2,
         (key (fun x => { x with roughness := some vr }) fun x => rfl).1,
         (key (fun x => { x with roughness := some vr }) fun x => rfl).2,
         (key (fun x => { x with color := some c }) fun x => rfl).1,
         (key (fun x => { x with color := some c }) fun x => rfl).2,
         (key (fun x => { x with wireframe := b }) fun x => rfl).1,
         (key (fun x => { x with wireframe := b }) fun x => rfl).2⟩

/-- Witness for C9: on the demo post-load state, writing metalness 3,
roughness 4, a color, and wireframe on material 1 is observed through
mesh 1 and leaves mesh 3's material 2 untouched. -/
theorem claim_C9_witness :
    demoMesh1.materialId = 1 ∧ demoMesh3.materialId ≠ 1 ∧
    materialOfMesh demoLoaded demoMesh1 = some demoTraversedMat1 ∧
    (materialOfMesh (metalnessOnChange demoLoaded 1 3) demoMesh1 =
        some { demoTraversedMat1 with metalness := some 3 } ∧
     materialOfMesh (metalnessOnChange demoLoaded 1 3) demoMesh3 =
        materialOfMesh demoLoaded demoMesh3 ∧
     materialOfMesh (roughnessOnChange demoLoaded 1 4) demoMesh1 =
        some { demoTraversedMat1 with roughness := some 4 } ∧
     materialOfMesh (roughnessOnChange demoLoaded 1 4) demoMesh3 =
        materialOfMesh demoLoaded demoMesh3 ∧
     materialOfMesh (colorOnChange demoLoaded 1 0x123456) demoMesh1 =
        some { demoTraversedMat1 with color := some 0x123456 } ∧
     materialOfMesh (colorOnChange demoLoaded 1 0x123456) demoMesh3 =
        materialOfMesh demoLoaded demoMesh3 ∧
     materialOfMesh (wireframeOnChange demoLoaded 1 true) demoMesh1 =
        some { demoTraversedMat1 with wireframe := true } ∧
     materialOfMesh (wireframeOnChange demoLoaded 1 true) demoMesh3 =
        materialOfMesh demoLoaded demoMesh3) :=
  ⟨by decide, by decide, by decide,
   claim_C9 demoLoaded 1 demoMesh1 demoMesh3 demoTraversedMat1 3 4 0x123456 true
     (by decide) (by decide) (by decide)⟩

/-- C10: shadow mapping is enabled at bootstrap with the soft shadow
map type, and no operation of the program ever changes the shadow-map
configuration. -/
theorem claim_C10 :
    (∀ w h, (initState w h).renderer.shadowMapEnabled = true) ∧
    (∀ w h, (initState w h).renderer.shadowMapType = ShadowMapType.pcfSoftShadowMap) ∧
    (∀ s o store, (onLoad s o store).renderer = s.renderer) ∧
    (∀ s e, (onError s e).renderer = s.renderer) ∧
    (∀ n s, (animateN n s).renderer = s.renderer) ∧
    (∀ s w h, (onResize s w h).renderer.shadowMapEnabled = s.renderer.shadowMapEnabled ∧
              (onResize s w h).renderer.shadowMapType = s.renderer.shadowMapType) ∧
    (∀ s v, (ambientOnChange s v).renderer = s.renderer ∧
            (mainOnChange s v).renderer = s.renderer ∧
            (fillOnChange s v).renderer = s.renderer ∧
            (topOnChange s v).renderer = s.renderer) ∧
    (∀ s mid v, (metalnessOnChange s mid v).renderer = s.renderer ∧
                (roughnessOnChange s mid v).renderer = s.renderer) ∧
    (∀ s mid c, (colorOnChange s mid c).renderer = s.renderer) ∧
    (∀ s mid b, (wireframeOnChange s mid b).renderer = s.renderer) ∧
    (∀ s v, (scaleOnChange s v).renderer = s.renderer ∧
            (rotationXOnChange s v).renderer = s.renderer ∧
            (rotationYOnChange s v).renderer = s.renderer ∧
            (rotationZOnChange s v).renderer = s.renderer) :=
  ⟨fun w h => rfl, fun w h => rfl, fun s o store => rfl, fun s e => rfl,
   fun n s => animateN_renderer n s,
   fun s w h => ⟨rfl, rfl⟩,
   fun s v => ⟨rfl, rfl, rfl, rfl⟩,
   fun s mid v => ⟨rfl, rfl⟩, fun s mid c => rfl, fun s mid b => rfl,
   fun s v => ⟨rfl, rfl, rfl, rfl⟩⟩

end OkcZev
